import Mathlib

/-!
Verification of the RF Link Planner (src/app.js).

The repository ships two near-identical copies of the application logic in
app.js.  The primary copy (lines 1-828) is embedded at top level inside the
RFPlanner namespace; the second, legacy copy (lines 829 onward) differs in a
few functions, and its calculateBearing is embedded as Legacy.calculateBearing.

Modelling conventions:
- JavaScript numbers are modelled by real numbers for the geometric
  calculations, and by rational numbers for the exact equality tests the
  registry performs on frequencies and ids.
- JavaScript's remainder operator (sign of the dividend, truncated quotient)
  is modelled by jsMod below; Math.atan2 by the complex argument function.
- Links hold references to the tower objects of the registry, so mutating a
  tower's frequency is visible through every link; this aliasing is modelled
  by updating every embedded copy of the tower that carries the edited id.
- Map-widget handles (markers, polylines, polygons), modal/notification
  presentation and the DOM are outside the domain model and are omitted.
-/

namespace RFPlanner

noncomputable section

/-- Constant SPEED_OF_LIGHT (app.js line 23): 3e8 m/s. -/
def SPEED_OF_LIGHT : ℝ := 300000000

/-- toRadians (app.js lines 476-478). -/
def toRadians (degrees : ℝ) : ℝ := degrees * Real.pi / 180

/-- toDegrees (app.js lines 480-482). -/
def toDegrees (radians : ℝ) : ℝ := radians * 180 / Real.pi

/-- Math.atan2 y x, modelled as the argument of the complex number x + y*i.
Its range is (-pi, pi], and atan2 0 0 = 0, matching JavaScript. -/
def atan2 (y x : ℝ) : ℝ := Complex.arg ⟨x, y⟩

/-- Truncation toward zero, as used by JavaScript's remainder operator. -/
def jsTrunc (x : ℝ) : ℤ := if 0 ≤ x then ⌊x⌋ else ⌈x⌉

/-- JavaScript's remainder operator on numbers: a - b * trunc (a / b). -/
def jsMod (a b : ℝ) : ℝ := a - b * (jsTrunc (a / b) : ℝ)

/-- calculateWavelength (app.js lines 429-434): c / (f * 1e9). -/
def calculateWavelength (frequencyGHz : ℝ) : ℝ :=
  SPEED_OF_LIGHT / (frequencyGHz * 1000000000)

/-- calculateFresnelRadius (app.js lines 436-443); d1 and d2 arrive in
kilometers and are converted to meters internally. -/
def calculateFresnelRadius (wavelength d1 d2 : ℝ) : ℝ :=
  Real.sqrt ((wavelength * (d1 * 1000) * (d2 * 1000)) / (d1 * 1000 + d2 * 1000))

/-- The local value a of calculateDistance (app.js lines 451-453). -/
def haversineA (lat1 lon1 lat2 lon2 : ℝ) : ℝ :=
  Real.sin (toRadians (lat2 - lat1) / 2) * Real.sin (toRadians (lat2 - lat1) / 2) +
    Real.cos (toRadians lat1) * Real.cos (toRadians lat2) *
      Real.sin (toRadians (lon2 - lon1) / 2) * Real.sin (toRadians (lon2 - lon1) / 2)

/-- calculateDistance (app.js lines 445-457): Haversine great-circle distance
in kilometers, Earth radius 6371 km. -/
def calculateDistance (lat1 lon1 lat2 lon2 : ℝ) : ℝ :=
  6371 * (2 * atan2 (Real.sqrt (haversineA lat1 lon1 lat2 lon2))
    (Real.sqrt (1 - haversineA lat1 lon1 lat2 lon2)))

/-- calculateBearing (app.js lines 459-474, primary copy): initial bearing,
normalised by (toDegrees bearing + 360) % 360. -/
def calculateBearing (lat1 lon1 lat2 lon2 : ℝ) : ℝ :=
  jsMod
    (toDegrees (atan2
      (Real.sin (toRadians (lon2 - lon1)) * Real.cos (toRadians lat2))
      (Real.cos (toRadians lat1) * Real.sin (toRadians lat2) -
        Real.sin (toRadians lat1) * Real.cos (toRadians lat2) *
          Real.cos (toRadians (lon2 - lon1)))) + 360) 360

/-- calculateBearing of the legacy copy (app.js lines 1243-1251): identical
y and x, but the result is returned in degrees without range normalisation. -/
def Legacy.calculateBearing (lat1 lon1 lat2 lon2 : ℝ) : ℝ :=
  toDegrees (atan2
    (Real.sin (toRadians (lon2 - lon1)) * Real.cos (toRadians lat2))
    (Real.cos (toRadians lat1) * Real.sin (toRadians lat2) -
      Real.sin (toRadians lat1) * Real.cos (toRadians lat2) *
        Real.cos (toRadians (lon2 - lon1))))

end

/-- Tower entity (app.js lines 87-95); the marker field is a map-widget
handle and is not part of the domain model. -/
structure Tower where
  id : ℕ
  name : String
  frequency : ℚ
  lat : ℚ
  lng : ℚ
  deriving DecidableEq, Repr

/-- Error taxonomy for link creation; the code surfaces these as
notifications (app.js lines 151 and 184). -/
inductive LinkError where
  | frequencyMismatch
  | duplicateLink
  deriving DecidableEq, Repr

/-- Link entity (app.js lines 188-199); the polyline and fresnelZone fields
are map-widget handles and are not part of the domain model. -/
structure Link where
  id : ℕ
  tower1 : Tower
  tower2 : Tower
  frequency : ℚ
  distance : ℝ

/-- Application state (app.js lines 7-18); the map, pendingTowerLocation and
confirmAction fields are presentation-layer handles and are omitted. -/
structure AppState where
  mode : String
  towers : List Tower
  links : List Link
  selectedTowers : List Tower
  towerIdCounter : ℕ
  linkIdCounter : ℕ
  activeLinkForFresnel : Option ℕ

/-- The condition link.tower1.id === towerId or link.tower2.id === towerId
used by performDeleteTower (line 248) and updateTowerFrequency (line 314). -/
def touchesTower (towerId : ℕ) (l : Link) : Bool :=
  l.tower1.id == towerId || l.tower2.id == towerId

/-- The duplicate test of createLink (app.js lines 178-181). -/
def linkExists (links : List Link) (tower1 tower2 : Tower) : Bool :=
  links.any fun link =>
    (link.tower1.id == tower1.id && link.tower2.id == tower2.id) ||
      (link.tower1.id == tower2.id && link.tower2.id == tower1.id)

/-- createLink (app.js lines 176-221): fails when an undirected link between
the pair already exists; otherwise appends a new link whose distance is
computed with calculateDistance, and advances the id counter. -/
noncomputable def createLink (s : AppState) (tower1 tower2 : Tower) :
    AppState × Option LinkError :=
  if linkExists s.links tower1 tower2 then (s, some LinkError.duplicateLink)
  else
    ({ s with
        links := s.links ++ [{
          id := s.linkIdCounter,
          tower1 := tower1,
          tower2 := tower2,
          frequency := tower1.frequency,
          distance := calculateDistance tower1.lat tower1.lng tower2.lat tower2.lng }],
        linkIdCounter := s.linkIdCounter + 1 }, none)

/-- The pairing step of handleTowerClickForLink once two towers are selected
(app.js lines 146-159): the frequency-mismatch check followed by createLink. -/
noncomputable def tryCreateLink (s : AppState) (tower1 tower2 : Tower) :
    AppState × Option LinkError :=
  if tower1.frequency ≠ tower2.frequency then (s, some LinkError.frequencyMismatch)
  else createLink s tower1 tower2

/-- performDeleteLink (app.js lines 287-301): removes the first link carrying
the given id (no-op when the id is absent) and clears the active-Fresnel
singleton when it referenced this link. -/
def performDeleteLink (s : AppState) (linkId : ℕ) : AppState :=
  if s.links.any (fun l => l.id == linkId) then
    { s with
        links := s.links.eraseP (fun l => l.id == linkId),
        activeLinkForFresnel :=
          if s.activeLinkForFresnel = some linkId then none
          else s.activeLinkForFresnel }
  else s

/-- Removal of the tower entry itself (app.js line 251). -/
def removeTowerEntry (s : AppState) (towerId : ℕ) : AppState :=
  { s with towers := s.towers.eraseP (fun t => t.id == towerId) }

/-- performDeleteTower (app.js lines 244-254): when the tower is present,
deletes every link touching it through performDeleteLink, then removes the
tower entry. -/
def performDeleteTower (s : AppState) (towerId : ℕ) : AppState :=
  if s.towers.any (fun t => t.id == towerId) then
    removeTowerEntry
      ((s.links.filter (touchesTower towerId)).foldl
        (fun st l => performDeleteLink st l.id) s)
      towerId
  else s

/-- Frequency assignment through an aliased tower reference: the object
carrying the edited id receives the new frequency, every other object is
untouched. -/
def setFreq (towerId : ℕ) (f : ℚ) (t : Tower) : Tower :=
  if t.id == towerId then { t with frequency := f } else t

/-- The mutation tower.frequency = f as seen through a link's tower
references (aliasing). -/
def updateLinkTowers (towerId : ℕ) (f : ℚ) (l : Link) : Link :=
  { l with
      tower1 := setFreq towerId f l.tower1,
      tower2 := setFreq towerId f l.tower2 }

/-- Effect of the mutation tower.frequency = f (app.js line 307) on the whole
state: every aliased copy of the tower (registry entry and link endpoints)
shows the new frequency. -/
def applyFrequency (s : AppState) (towerId : ℕ) (f : ℚ) : AppState :=
  { s with
      towers := s.towers.map (setFreq towerId f),
      links := s.links.map (updateLinkTowers towerId f) }

/-- The invalidLinks collection of updateTowerFrequency (app.js lines
313-316), computed after the frequency mutation has been applied. -/
def invalidLinksOf (s : AppState) (towerId : ℕ) (f : ℚ) : List Link :=
  (applyFrequency s towerId f).links.filter
    (fun l => touchesTower towerId l && (l.tower1.frequency != l.tower2.frequency))

/-- updateTowerFrequency (app.js lines 303-334).  The confirmed argument is
the user's resolution of the confirmation dialog.  On confirm, the
invalidated links are deleted; on cancel the code assigns
state.links.find(touching)?.frequency with fallback tower.frequency back to
the tower (and at that point tower.frequency already holds newFrequency).
The code performs no validation of newFrequency. -/
def updateTowerFrequency (s : AppState) (towerId : ℕ)
    (newFrequency : ℚ) (confirmed : Bool) : AppState :=
  if s.towers.any (fun t => t.id == towerId) then
    if (invalidLinksOf s towerId newFrequency).length > 0 then
      if confirmed then
        (invalidLinksOf s towerId newFrequency).foldl
          (fun st l => performDeleteLink st l.id)
          (applyFrequency s towerId newFrequency)
      else
        applyFrequency (applyFrequency s towerId newFrequency) towerId
          ((((applyFrequency s towerId newFrequency).links.find?
              (touchesTower towerId)).map
            (fun l => if l.frequency == 0 then newFrequency else l.frequency)).getD
            newFrequency)
    else applyFrequency s towerId newFrequency
  else s

/-- deactivateActiveFresnelZone (app.js lines 415-424): clears the singleton;
the map-layer and color updates are presentation. -/
def deactivateActiveFresnelZone (s : AppState) : AppState :=
  { s with activeLinkForFresnel := none }

/-- showFresnelZone (app.js lines 339-384), restricted to its effect on the
domain state: toggle off when the clicked link is already active, otherwise
deactivate any other active link and activate the clicked one. -/
def showFresnelZone (s : AppState) (link : Link) : AppState :=
  if s.activeLinkForFresnel = some link.id then
    deactivateActiveFresnelZone s
  else
    { (if s.activeLinkForFresnel ≠ none then deactivateActiveFresnelZone s else s) with
        activeLinkForFresnel := some link.id }

/-- Registry invariant 3 of the specification: every link's endpoints exist
in the tower collection. -/
@[reducible] def noDangling (s : AppState) : Prop :=
  ∀ l ∈ s.links,
    (∃ t ∈ s.towers, t.id = l.tower1.id) ∧ (∃ t ∈ s.towers, t.id = l.tower2.id)

/-- Fixture tower used by the witnesses. -/
def towerA : Tower := { id := 1, name := "A", frequency := 5, lat := 0, lng := 0 }

/-- Fixture tower used by the witnesses. -/
def towerB : Tower := { id := 2, name := "B", frequency := 5, lat := 1, lng := 1 }

/-- Fixture tower used by the witnesses. -/
def towerC : Tower := { id := 3, name := "C", frequency := 5, lat := 2, lng := 2 }

/-- Fixture tower with frequency 5.1 GHz, used by the C2 witness. -/
def towerD : Tower := { id := 4, name := "D", frequency := 51 / 10, lat := 3, lng := 3 }

/-- Fixture link between towerA and towerB. -/
noncomputable def linkAB : Link :=
  { id := 1, tower1 := towerA, tower2 := towerB, frequency := 5,
    distance := calculateDistance towerA.lat towerA.lng towerB.lat towerB.lng }

/-- Fixture link between towerA and towerC. -/
noncomputable def linkAC : Link :=
  { id := 2, tower1 := towerA, tower2 := towerC, frequency := 5,
    distance := calculateDistance towerA.lat towerA.lng towerC.lat towerC.lng }

/-- Fixture link between towerB and towerC. -/
noncomputable def linkBC : Link :=
  { id := 3, tower1 := towerB, tower2 := towerC, frequency := 5,
    distance := calculateDistance towerB.lat towerB.lng towerC.lat towerC.lng }

/-- Fixture state with no towers and no links. -/
def stateEmpty : AppState :=
  { mode := "addTower", towers := [], links := [], selectedTowers := [],
    towerIdCounter := 1, linkIdCounter := 1, activeLinkForFresnel := none }

/-- Fixture state with three towers and three links, used by the C3 witness. -/
noncomputable def stateTriangle : AppState :=
  { mode := "addTower", towers := [towerA, towerB, towerC],
    links := [linkAB, linkAC, linkBC], selectedTowers := [],
    towerIdCounter := 4, linkIdCounter := 4, activeLinkForFresnel := none }

/-- Fixture state with two links and an active Fresnel zone on link 1, used
by the C4 witness. -/
noncomputable def stateActive : AppState :=
  { mode := "addTower", towers := [towerA, towerB, towerC],
    links := [linkAB, linkAC], selectedTowers := [],
    towerIdCounter := 4, linkIdCounter := 3, activeLinkForFresnel := some 1 }

/-- Fixture state with one link between towerA and towerB, used by the C5 and
C9 witnesses. -/
noncomputable def statePair : AppState :=
  { mode := "addTower", towers := [towerA, towerB], links := [linkAB],
    selectedTowers := [], towerIdCounter := 3, linkIdCounter := 2,
    activeLinkForFresnel := none }

/-- Fixture state with a single unlinked tower, used for C8. -/
def stateSolo : AppState :=
  { mode := "addTower", towers := [towerA], links := [], selectedTowers := [],
    towerIdCounter := 2, linkIdCounter := 1, activeLinkForFresnel := none }

end RFPlanner

namespace RFPlanner

theorem atan2_bounds (y x : ℝ) : -Real.pi < atan2 y x ∧ atan2 y x ≤ Real.pi :=
  ⟨Complex.neg_pi_lt_arg _, Complex.arg_le_pi _⟩

theorem atan2_zero_one : atan2 0 1 = 0 := by
  show Complex.arg ⟨1, 0⟩ = 0
  have h : ((⟨1, 0⟩ : ℂ)) = 1 := Complex.ext rfl rfl
  rw [h, Complex.arg_one]

theorem toDegrees_bounds {r : ℝ} (h1 : -Real.pi < r) (h2 : r ≤ Real.pi) :
    -180 < toDegrees r ∧ toDegrees r ≤ 180 := by
  have hpi := Real.pi_pos
  constructor
  · rw [toDegrees, lt_div_iff₀ hpi]
    nlinarith
  · rw [toDegrees, div_le_iff₀ hpi]
    nlinarith

theorem jsMod_nonneg_lt {a b : ℝ} (ha : 0 ≤ a) (hb : 0 < b) :
    0 ≤ jsMod a b ∧ jsMod a b < b := by
  have hb0 : b ≠ 0 := ne_of_gt hb
  have htr : jsTrunc (a / b) = ⌊a / b⌋ := if_pos (div_nonneg ha hb.le)
  have h1 : ((⌊a / b⌋ : ℤ) : ℝ) ≤ a / b := Int.floor_le _
  have h2 : a / b < (⌊a / b⌋ : ℝ) + 1 := Int.lt_floor_add_one _
  have h3 : b * (a / b) = a := by field_simp
  have h4 : b * ((⌊a / b⌋ : ℝ)) ≤ a := by nlinarith
  have h5 : a < b * ((⌊a / b⌋ : ℝ)) + b := by nlinarith
  rw [jsMod, htr]
  constructor
  · linarith
  · linarith

theorem jsMod_add_360 {L : ℝ} (h0 : 0 ≤ L) (h1 : L ≤ 180) :
    jsMod (L + 360) 360 = L := by
  have htr : jsTrunc ((L + 360) / 360) = ⌊(L + 360) / 360⌋ :=
    if_pos (div_nonneg (by linarith) (by norm_num))
  have hfl : ⌊(L + 360) / 360⌋ = 1 := by
    rw [Int.floor_eq_iff]
    constructor
    · push_cast
      rw [le_div_iff₀ (by norm_num : (0:ℝ) < 360)]
      linarith
    · push_cast
      rw [div_lt_iff₀ (by norm_num : (0:ℝ) < 360)]
      linarith
  rw [jsMod, htr, hfl]
  push_cast
  ring

theorem bearing_aux (y x : ℝ) :
    0 ≤ jsMod (toDegrees (atan2 y x) + 360) 360 ∧
      jsMod (toDegrees (atan2 y x) + 360) 360 < 360 := by
  have hb := atan2_bounds y x
  have hd := toDegrees_bounds hb.1 hb.2
  exact jsMod_nonneg_lt (by linarith [hd.1]) (by norm_num)

theorem haversineA_symm (lat1 lon1 lat2 lon2 : ℝ) :
    haversineA lat2 lon2 lat1 lon1 = haversineA lat1 lon1 lat2 lon2 := by
  unfold haversineA toRadians
  have e1 : (lat1 - lat2) * Real.pi / 180 / 2 = -((lat2 - lat1) * Real.pi / 180 / 2) := by
    ring
  have e2 : (lon1 - lon2) * Real.pi / 180 / 2 = -((lon2 - lon1) * Real.pi / 180 / 2) := by
    ring
  rw [e1, e2, Real.sin_neg, Real.sin_neg]
  ring

theorem haversineA_self (lat lon : ℝ) : haversineA lat lon lat lon = 0 := by
  unfold haversineA toRadians
  simp

/-- C6: for all latitude/longitude pairs, calculateDistance is symmetric in
its two points, and the distance from any point to itself is zero. -/
theorem calculateDistance_symm_refl :
    (∀ lat1 lon1 lat2 lon2 : ℝ,
      calculateDistance lat1 lon1 lat2 lon2 = calculateDistance lat2 lon2 lat1 lon1) ∧
    (∀ lat lon : ℝ, calculateDistance lat lon lat lon = 0) := by
  constructor
  · intro lat1 lon1 lat2 lon2
    unfold calculateDistance
    rw [haversineA_symm]
  · intro lat lon
    unfold calculateDistance
    rw [haversineA_self]
    rw [Real.sqrt_zero, sub_zero, Real.sqrt_one, atan2_zero_one]
    ring

/-- C7: the primary calculateBearing always returns a value in [0, 360). -/
theorem calculateBearing_range (lat1 lon1 lat2 lon2 : ℝ) :
    0 ≤ calculateBearing lat1 lon1 lat2 lon2 ∧
      calculateBearing lat1 lon1 lat2 lon2 < 360 := by
  unfold calculateBearing
  exact bearing_aux _ _

theorem legacy_le_180 (lat1 lon1 lat2 lon2 : ℝ) :
    Legacy.calculateBearing lat1 lon1 lat2 lon2 ≤ 180 := by
  unfold Legacy.calculateBearing
  exact (toDegrees_bounds (atan2_bounds _ _).1 (atan2_bounds _ _).2).2

/-- C10: the primary copy of calculateBearing equals the legacy copy's result
shifted by +360 and reduced with JavaScript's remainder by 360; hence the two
copies agree exactly whenever the legacy result is non-negative. -/
theorem calculateBearing_copies_agree (lat1 lon1 lat2 lon2 : ℝ) :
    calculateBearing lat1 lon1 lat2 lon2 =
      jsMod (Legacy.calculateBearing lat1 lon1 lat2 lon2 + 360) 360 ∧
    (0 ≤ Legacy.calculateBearing lat1 lon1 lat2 lon2 →
      calculateBearing lat1 lon1 lat2 lon2 = Legacy.calculateBearing lat1 lon1 lat2 lon2) := by
  constructor
  · rfl
  · intro h
    have e : calculateBearing lat1 lon1 lat2 lon2 =
        jsMod (Legacy.calculateBearing lat1 lon1 lat2 lon2 + 360) 360 := rfl
    rw [e, jsMod_add_360 h (legacy_le_180 lat1 lon1 lat2 lon2)]

theorem legacy_at_origin : Legacy.calculateBearing 0 0 0 0 = 0 := by
  unfold Legacy.calculateBearing atan2
  have hY : Real.sin (toRadians (0 - 0)) * Real.cos (toRadians (0:ℝ)) = 0 := by
    simp [toRadians]
  have hX : Real.cos (toRadians (0:ℝ)) * Real.sin (toRadians (0:ℝ)) -
      Real.sin (toRadians (0:ℝ)) * Real.cos (toRadians (0:ℝ)) *
        Real.cos (toRadians (0 - 0)) = 0 := by
    simp [toRadians]
  rw [hY, hX]
  have hz : ((⟨0, 0⟩ : ℂ)) = 0 := Complex.ext rfl rfl
  rw [hz, Complex.arg_zero]
  simp [toDegrees]

/-- Witness for C10 at the concrete input (0, 0, 0, 0), where the legacy
copy returns 0 and the two copies agree. -/
theorem calculateBearing_copies_agree_witness :
    0 ≤ Legacy.calculateBearing 0 0 0 0 ∧
      calculateBearing 0 0 0 0 = Legacy.calculateBearing 0 0 0 0 := by
  have h0 : (0:ℝ) ≤ Legacy.calculateBearing 0 0 0 0 := by
    rw [legacy_at_origin]
  exact ⟨h0, (calculateBearing_copies_agree 0 0 0 0).2 h0⟩

/-- C1: at the symmetric midpoint of a link of total length d kilometers,
calculateFresnelRadius applied to (d/2, d/2) equals
sqrt ((wavelength * d1m * d2m) / (d1m + d2m)) for d1m = d2m = 500 * d meters. -/
theorem calculateFresnelRadius_midpoint (lam d : ℝ) (hlam : 0 < lam) (hd : 0 < d) :
    calculateFresnelRadius lam (d / 2) (d / 2) =
      Real.sqrt ((lam * (500 * d) * (500 * d)) / (500 * d + 500 * d)) := by
  unfold calculateFresnelRadius
  congr 1
  ring

/-- Witness for C1: wavelength 0.06 m (which is calculateWavelength 5, the
wavelength of a 5 GHz signal) on a 10 km link gives sqrt 150, approx 12.25 m. -/
theorem calculateFresnelRadius_midpoint_witness :
    calculateWavelength 5 = 0.06 ∧ (0:ℝ) < 0.06 ∧ (0:ℝ) < 10 ∧
      calculateFresnelRadius 0.06 (10 / 2) (10 / 2) = Real.sqrt 150 := by
  refine ⟨?_, by norm_num, by norm_num, ?_⟩
  · unfold calculateWavelength SPEED_OF_LIGHT
    norm_num
  · rw [calculateFresnelRadius_midpoint 0.06 10 (by norm_num) (by norm_num)]
    norm_num

theorem eraseP_key_eq_filter {α : Type} (key : α → ℕ) (i : ℕ) (L : List α)
    (h : (L.map key).Nodup) :
    L.eraseP (fun x => key x == i) = L.filter (fun x => !(key x == i)) := by
  induction L with
  | nil => rfl
  | cons a L ih =>
    rw [List.map_cons, List.nodup_cons] at h
    rw [List.eraseP_cons, List.filter_cons]
    by_cases hc : key a = i
    · have hb : (key a == i) = true := beq_iff_eq.mpr hc
      rw [hb]
      have hfl : L.filter (fun x => !(key x == i)) = L := by
        apply List.filter_eq_self.mpr
        intro x hx
        have hne : key x ≠ i := by
          intro he
          apply h.1
          rw [hc, ← he]
          exact List.mem_map_of_mem key hx
        simpa using hne
      simp [hfl]
    · have hb : (key a == i) = false := beq_eq_false_iff_ne.mpr hc
      rw [hb]
      simp [ih h.2]

theorem length_filter_key_le_one {α : Type} (key : α → ℕ) (i : ℕ) (L : List α)
    (h : (L.map key).Nodup) :
    (L.filter (fun x => key x == i)).length ≤ 1 := by
  induction L with
  | nil => simp
  | cons a L ih =>
    rw [List.map_cons, List.nodup_cons] at h
    rw [List.filter_cons]
    by_cases hc : key a = i
    · rw [if_pos (beq_iff_eq.mpr hc)]
      have hnil : L.filter (fun x => key x == i) = [] := by
        apply List.filter_eq_nil_iff.mpr
        intro x hx hbeq
        apply h.1
        rw [hc, ← eq_of_beq hbeq]
        exact List.mem_map_of_mem key hx
      rw [hnil]
      simp
    · rw [if_neg (by simpa using hc)]
      exact ih h.2

theorem pdl_towers (s : AppState) (i : ℕ) :
    (performDeleteLink s i).towers = s.towers := by
  unfold performDeleteLink
  split <;> rfl

theorem pdl_links (s : AppState) (i : ℕ) :
    (performDeleteLink s i).links = s.links.eraseP (fun l => l.id == i) := by
  unfold performDeleteLink
  split
  · rfl
  · rename_i hna
    have h : ∀ l ∈ s.links, ¬((l.id == i) = true) := by
      intro l hl hb
      exact hna (List.any_eq_true.mpr ⟨l, hl, hb⟩)
    rw [List.eraseP_of_forall_not h]

theorem foldl_pdl_towers (K : List Link) (s : AppState) :
    (K.foldl (fun st l => performDeleteLink st l.id) s).towers = s.towers := by
  induction K generalizing s with
  | nil => rfl
  | cons k K ih =>
    rw [List.foldl_cons, ih, pdl_towers]

theorem foldl_pdl_links (K : List Link) (s : AppState) :
    (K.foldl (fun st l => performDeleteLink st l.id) s).links =
      K.foldl (fun L l => L.eraseP (fun x => x.id == l.id)) s.links := by
  induction K generalizing s with
  | nil => rfl
  | cons k K ih =>
    rw [List.foldl_cons, List.foldl_cons, ih, pdl_links]

theorem foldl_eraseP_eq_filter (K : List Link) (L : List Link)
    (h : (L.map Link.id).Nodup) :
    K.foldl (fun M l => M.eraseP (fun x => x.id == l.id)) L =
      L.filter (fun x => !(K.any (fun k => x.id == k.id))) := by
  induction K generalizing L with
  | nil =>
    rw [List.foldl_nil]
    symm
    apply List.filter_eq_self.mpr
    intro x hx
    rfl
  | cons k K ih =>
    rw [List.foldl_cons, eraseP_key_eq_filter Link.id k.id L h]
    have hsub : ((L.filter (fun x => !(Link.id x == k.id))).map Link.id).Nodup :=
      List.Nodup.sublist (List.Sublist.map Link.id (List.filter_sublist L)) h
    rw [ih _ hsub, List.filter_filter]
    apply List.filter_congr
    intro x hx
    simp [List.any_cons, Bool.not_or, Bool.and_comm]

theorem linkExists_symm (L : List Link) (A B : Tower) :
    linkExists L B A = linkExists L A B := by
  unfold linkExists
  congr 1
  funext l
  rw [Bool.or_comm]

theorem showFresnelZone_active (s : AppState) (l : Link) :
    (showFresnelZone s l).activeLinkForFresnel =
      if s.activeLinkForFresnel = some l.id then none else some l.id := by
  unfold showFresnelZone deactivateActiveFresnelZone
  by_cases h : s.activeLinkForFresnel = some l.id
  · rw [if_pos h, if_pos h]
  · rw [if_neg h, if_neg h]

theorem setFreq_id (towerId : ℕ) (f : ℚ) (t : Tower) :
    (setFreq towerId f t).id = t.id := by
  unfold setFreq
  split <;> rfl

theorem setFreq_setFreq (towerId : ℕ) (f g : ℚ) (t : Tower) :
    setFreq towerId g (setFreq towerId f t) = setFreq towerId g t := by
  unfold setFreq
  by_cases h : (t.id == towerId) = true
  · simp [h]
  · simp [h]

theorem setFreq_eq_self {towerId : ℕ} {g : ℚ} (t : Tower)
    (h : t.id = towerId → t.frequency = g) : setFreq towerId g t = t := by
  unfold setFreq
  by_cases hb : (t.id == towerId) = true
  · rw [if_pos hb, ← h (eq_of_beq hb)]
  · rw [if_neg hb]

theorem updateLinkTowers_frequency (towerId : ℕ) (f : ℚ) (l : Link) :
    (updateLinkTowers towerId f l).frequency = l.frequency := rfl

theorem touchesTower_updateLinkTowers (towerId towerId0 : ℕ) (f : ℚ) (l : Link) :
    touchesTower towerId (updateLinkTowers towerId0 f l) = touchesTower towerId l := by
  unfold touchesTower updateLinkTowers
  dsimp only
  rw [setFreq_id, setFreq_id]

theorem updateLinkTowers_twice (towerId : ℕ) (f g : ℚ) (l : Link) :
    updateLinkTowers towerId g (updateLinkTowers towerId f l) =
      updateLinkTowers towerId g l := by
  unfold updateLinkTowers
  dsimp only
  rw [setFreq_setFreq, setFreq_setFreq]

theorem applyFrequency_twice (s : AppState) (towerId : ℕ) (f g : ℚ) :
    applyFrequency (applyFrequency s towerId f) towerId g =
      applyFrequency s towerId g := by
  have ht : (s.towers.map (setFreq towerId f)).map (setFreq towerId g) =
      s.towers.map (setFreq towerId g) := by
    rw [List.map_map]
    apply List.map_congr_left
    intro t _
    show setFreq towerId g (setFreq towerId f t) = setFreq towerId g t
    exact setFreq_setFreq towerId f g t
  have hl : (s.links.map (updateLinkTowers towerId f)).map (updateLinkTowers towerId g) =
      s.links.map (updateLinkTowers towerId g) := by
    rw [List.map_map]
    apply List.map_congr_left
    intro l _
    show updateLinkTowers towerId g (updateLinkTowers towerId f l) =
      updateLinkTowers towerId g l
    exact updateLinkTowers_twice towerId f g l
  unfold applyFrequency
  dsimp only
  rw [ht, hl]

theorem applyFrequency_eq_self (s : AppState) (towerId : ℕ) (g : ℚ)
    (htow : ∀ t ∈ s.towers, t.id = towerId → t.frequency = g)
    (hl1 : ∀ l ∈ s.links, l.tower1.id = towerId → l.tower1.frequency = g)
    (hl2 : ∀ l ∈ s.links, l.tower2.id = towerId → l.tower2.frequency = g) :
    applyFrequency s towerId g = s := by
  have ht : s.towers.map (setFreq towerId g) = s.towers := by
    conv_rhs => rw [← List.map_id s.towers]
    apply List.map_congr_left
    intro t htm
    show setFreq towerId g t = t
    exact setFreq_eq_self t (htow t htm)
  have hli : s.links.map (updateLinkTowers towerId g) = s.links := by
    conv_rhs => rw [← List.map_id s.links]
    apply List.map_congr_left
    intro l hlm
    show updateLinkTowers towerId g l = l
    unfold updateLinkTowers
    rw [setFreq_eq_self l.tower1 (hl1 l hlm), setFreq_eq_self l.tower2 (hl2 l hlm)]
  unfold applyFrequency
  rw [ht, hli]

/-- C2: when the two selected towers have different frequencies, the
link-creation attempt reports frequencyMismatch and returns the state (so the
link collection keeps the same cardinality and elements); with equal
frequencies and no existing duplicate, it succeeds and appends one link. -/
theorem tryCreateLink_frequencyMismatch (s : AppState) (A B : Tower) :
    (A.frequency ≠ B.frequency →
      (tryCreateLink s A B).1 = s ∧
        (tryCreateLink s A B).2 = some LinkError.frequencyMismatch) ∧
    (A.frequency = B.frequency → linkExists s.links A B = false →
      (tryCreateLink s A B).2 = none ∧
        (tryCreateLink s A B).1.links.length = s.links.length + 1) := by
  constructor
  · intro h
    unfold tryCreateLink
    rw [if_pos h]
    exact ⟨rfl, rfl⟩
  · intro h hex
    have e : tryCreateLink s A B = createLink s A B := by
      unfold tryCreateLink
      rw [if_neg (fun hn => hn h)]
    rw [e]
    unfold createLink
    rw [if_neg (by simp [hex])]
    constructor
    · rfl
    · simp

/-- Witness for C2: on the empty registry, towers with frequencies 5 and 5.1
fail with frequencyMismatch leaving the state unchanged, while two towers
with frequency 5 succeed and append one link. -/
theorem tryCreateLink_frequencyMismatch_witness :
    (towerA.frequency ≠ towerD.frequency ∧
      (tryCreateLink stateEmpty towerA towerD).1 = stateEmpty ∧
      (tryCreateLink stateEmpty towerA towerD).2 = some LinkError.frequencyMismatch) ∧
    (towerA.frequency = towerB.frequency ∧
      linkExists stateEmpty.links towerA towerB = false ∧
      (tryCreateLink stateEmpty towerA towerB).2 = none ∧
      (tryCreateLink stateEmpty towerA towerB).1.links.length =
        stateEmpty.links.length + 1) := by
  have h1 : towerA.frequency ≠ towerD.frequency := by
    norm_num [towerA, towerD]
  have h2 : towerA.frequency = towerB.frequency := rfl
  have h3 : linkExists stateEmpty.links towerA towerB = false := rfl
  refine ⟨⟨h1, ?_, ?_⟩, h2, h3, ?_, ?_⟩
  · exact ((tryCreateLink_frequencyMismatch stateEmpty towerA towerD).1 h1).1
  · exact ((tryCreateLink_frequencyMismatch stateEmpty towerA towerD).1 h1).2
  · exact ((tryCreateLink_frequencyMismatch stateEmpty towerA towerB).2 h2 h3).1
  · exact ((tryCreateLink_frequencyMismatch stateEmpty towerA towerB).2 h2 h3).2

/-- C5: when an undirected link between the pair already exists, createLink
fails with duplicateLink in either argument order and returns the state (so
the link collection) unchanged. -/
theorem createLink_duplicate (s : AppState) (A B : Tower)
    (h : linkExists s.links A B = true) :
    createLink s A B = (s, some LinkError.duplicateLink) ∧
      createLink s B A = (s, some LinkError.duplicateLink) := by
  have hsymm : linkExists s.links B A = true := by
    rw [linkExists_symm]
    exact h
  constructor
  · unfold createLink
    rw [if_pos h]
  · unfold createLink
    rw [if_pos hsymm]

/-- Witness for C5: on the state already holding the link between towerA and
towerB, a second creation attempt fails with duplicateLink in both orders. -/
theorem createLink_duplicate_witness :
    linkExists statePair.links towerA towerB = true ∧
      createLink statePair towerA towerB = (statePair, some LinkError.duplicateLink) ∧
      createLink statePair towerB towerA = (statePair, some LinkError.duplicateLink) := by
  have h : linkExists statePair.links towerA towerB = true := by decide
  exact ⟨h, (createLink_duplicate statePair towerA towerB h).1,
    (createLink_duplicate statePair towerA towerB h).2⟩

/-- C3: deleting a present tower removes exactly the links touching it (each
through performDeleteLink) and the tower entry itself; when the state had no
dangling references, every remaining link's endpoints still exist. -/
theorem performDeleteTower_spec (s : AppState) (tid : ℕ)
    (hL : (s.links.map Link.id).Nodup)
    (hT : (s.towers.map Tower.id).Nodup)
    (hmem : s.towers.any (fun t => t.id == tid) = true)
    (hdang : noDangling s) :
    (performDeleteTower s tid).links = s.links.filter (fun l => !(touchesTower tid l)) ∧
    (performDeleteTower s tid).towers = s.towers.filter (fun t => !(t.id == tid)) ∧
    noDangling (performDeleteTower s tid) := by
  have hlinks : (performDeleteTower s tid).links =
      s.links.filter (fun l => !(touchesTower tid l)) := by
    unfold performDeleteTower removeTowerEntry
    rw [if_pos hmem]
    dsimp only
    rw [foldl_pdl_links, foldl_eraseP_eq_filter _ _ hL]
    apply List.filter_congr
    intro x hx
    have hkey : (s.links.filter (touchesTower tid)).any (fun k => x.id == k.id) =
        touchesTower tid x := by
      cases ht : touchesTower tid x with
      | true =>
        apply List.any_eq_true.mpr
        exact ⟨x, List.mem_filter.mpr ⟨hx, ht⟩, beq_self_eq_true _⟩
      | false =>
        rw [List.any_eq_false]
        intro k hk
        intro hbeq
        obtain ⟨hkL, hkt⟩ := List.mem_filter.mp hk
        have hxk : x = k := List.inj_on_of_nodup_map hL hx hkL (eq_of_beq hbeq)
        rw [hxk] at ht
        rw [ht] at hkt
        exact Bool.false_ne_true hkt
    rw [hkey]
  have htowers : (performDeleteTower s tid).towers =
      s.towers.filter (fun t => !(t.id == tid)) := by
    unfold performDeleteTower removeTowerEntry
    rw [if_pos hmem]
    dsimp only
    rw [foldl_pdl_towers]
    exact eraseP_key_eq_filter Tower.id tid s.towers hT
  refine ⟨hlinks, htowers, ?_⟩
  intro l hl
  rw [hlinks] at hl
  obtain ⟨hlL, hlt⟩ := List.mem_filter.mp hl
  have ht : touchesTower tid l = false := by
    cases h : touchesTower tid l with
    | true =>
      rw [h] at hlt
      exact absurd hlt (by simp)
    | false => rfl
  have hids : (l.tower1.id == tid) = false ∧ (l.tower2.id == tid) = false := by
    unfold touchesTower at ht
    exact Bool.or_eq_false_iff.mp ht
  obtain ⟨h1, h2⟩ := hids
  obtain ⟨⟨t1, ht1L, ht1id⟩, ⟨t2, ht2L, ht2id⟩⟩ := hdang l hlL
  rw [htowers]
  constructor
  · refine ⟨t1, List.mem_filter.mpr ⟨ht1L, ?_⟩, ht1id⟩
    rw [ht1id, h1]
    rfl
  · refine ⟨t2, List.mem_filter.mpr ⟨ht2L, ?_⟩, ht2id⟩
    rw [ht2id, h2]
    rfl

/-- Witness for C3: deleting towerA from the triangle state removes exactly
its two links, keeps the link between towerB and towerC, and removes the
tower, with no dangling references afterwards. -/
theorem performDeleteTower_spec_witness :
    ((stateTriangle.links.map Link.id).Nodup ∧
      (stateTriangle.towers.map Tower.id).Nodup ∧
      stateTriangle.towers.any (fun t => t.id == 1) = true ∧
      noDangling stateTriangle) ∧
    ((performDeleteTower stateTriangle 1).links =
        stateTriangle.links.filter (fun l => !(touchesTower 1 l)) ∧
      (performDeleteTower stateTriangle 1).towers =
        stateTriangle.towers.filter (fun t => !(t.id == 1)) ∧
      noDangling (performDeleteTower stateTriangle 1)) :=
  ⟨⟨by decide, by decide, by decide, by decide⟩,
    performDeleteTower_spec stateTriangle 1 (by decide) (by decide) (by decide) (by decide)⟩

/-- C4: with the active singleton set to a present link id a, at most one
link carries the flagged id; clicking link X then a different link Y leaves
exactly Y active; clicking Y again deactivates it (zero active links); and
deleting the active link clears the singleton. -/
theorem fresnel_singleton_spec (s : AppState) (X Y : Link) (a : ℕ)
    (hids : (s.links.map Link.id).Nodup)
    (hXY : X.id ≠ Y.id)
    (hact : s.activeLinkForFresnel = some a)
    (hmem : s.links.any (fun l => l.id == a) = true) :
    (s.links.filter (fun l => l.id == a)).length ≤ 1 ∧
    (showFresnelZone (showFresnelZone s X) Y).activeLinkForFresnel = some Y.id ∧
    (showFresnelZone (showFresnelZone (showFresnelZone s X) Y) Y).activeLinkForFresnel =
      none ∧
    (performDeleteLink s a).activeLinkForFresnel = none := by
  have hY : (showFresnelZone (showFresnelZone s X) Y).activeLinkForFresnel =
      some Y.id := by
    have hne : (showFresnelZone s X).activeLinkForFresnel ≠ some Y.id := by
      rw [showFresnelZone_active]
      by_cases h : s.activeLinkForFresnel = some X.id
      · rw [if_pos h]
        simp
      · rw [if_neg h]
        simp [hXY]
    rw [showFresnelZone_active, if_neg hne]
  refine ⟨length_filter_key_le_one Link.id a s.links hids, hY, ?_, ?_⟩
  · rw [showFresnelZone_active, if_pos hY]
  · unfold performDeleteLink
    rw [if_pos hmem]
    dsimp only
    rw [if_pos hact]

/-- Witness for C4 on a state with two links and link 1 active. -/
theorem fresnel_singleton_spec_witness :
    ((stateActive.links.map Link.id).Nodup ∧ linkAB.id ≠ linkAC.id ∧
      stateActive.activeLinkForFresnel = some 1 ∧
      stateActive.links.any (fun l => l.id == 1) = true) ∧
    ((stateActive.links.filter (fun l => l.id == 1)).length ≤ 1 ∧
      (showFresnelZone (showFresnelZone stateActive linkAB) linkAC).activeLinkForFresnel =
        some linkAC.id ∧
      (showFresnelZone (showFresnelZone (showFresnelZone stateActive linkAB) linkAC)
          linkAC).activeLinkForFresnel = none ∧
      (performDeleteLink stateActive 1).activeLinkForFresnel = none) :=
  ⟨⟨by decide, by decide, rfl, by decide⟩,
    fresnel_singleton_spec stateActive linkAB linkAC 1 (by decide) (by decide) rfl
      (by decide)⟩

/-- C8: updateTowerFrequency performs no validation of newFrequency; on the
single-tower state, updating tower 1 to the non-positive value -1 stores
frequency -1 instead of failing and leaving the frequency unchanged. -/
theorem updateTowerFrequency_accepts_nonpositive :
    (updateTowerFrequency stateSolo 1 (-1) false).towers.map Tower.frequency = [-1] := by
  decide

/-- C9: when the edited tower is present, every aliased copy of it currently
shows frequency f0, every link touching it snapshots frequency f0 (the
reachable-state invariant), f0 is nonzero, and the frequency change triggers
the invalid-link confirmation, then resolving the confirmation with false
(cancel) leaves the whole state exactly as before the request. -/
theorem updateTowerFrequency_cancel_revert (s : AppState) (tid : ℕ) (f f0 : ℚ)
    (hmem : s.towers.any (fun t => t.id == tid) = true)
    (htow : ∀ t ∈ s.towers, t.id = tid → t.frequency = f0)
    (hl1 : ∀ l ∈ s.links, l.tower1.id = tid → l.tower1.frequency = f0)
    (hl2 : ∀ l ∈ s.links, l.tower2.id = tid → l.tower2.frequency = f0)
    (hsnap : ∀ l ∈ s.links, touchesTower tid l = true → l.frequency = f0)
    (hf0 : f0 ≠ 0)
    (htrig : (invalidLinksOf s tid f).length > 0) :
    updateTowerFrequency s tid f false = s := by
  obtain ⟨L0, hfind⟩ :
      ∃ L0, (applyFrequency s tid f).links.find? (touchesTower tid) = some L0 := by
    obtain ⟨l, hl⟩ := List.exists_mem_of_length_pos htrig
    unfold invalidLinksOf at hl
    obtain ⟨hmemL, hprop⟩ := List.mem_filter.mp hl
    have htl : touchesTower tid l = true := by
      rw [Bool.and_eq_true] at hprop
      exact hprop.1
    exact Option.isSome_iff_exists.mp (List.find?_isSome.mpr ⟨l, hmemL, htl⟩)
  have hL0mem : L0 ∈ (applyFrequency s tid f).links := List.mem_of_find?_eq_some hfind
  have hL0touch : touchesTower tid L0 = true := List.find?_some hfind
  obtain ⟨l0, hl0mem, hl0eq⟩ : ∃ l0 ∈ s.links, updateLinkTowers tid f l0 = L0 := by
    have hm := hL0mem
    unfold applyFrequency at hm
    dsimp only at hm
    exact List.mem_map.mp hm
  have hfreq : L0.frequency = f0 := by
    rw [← hl0eq, updateLinkTowers_frequency]
    apply hsnap l0 hl0mem
    have htch := hL0touch
    rw [← hl0eq, touchesTower_updateLinkTowers] at htch
    exact htch
  have hbeq : (L0.frequency == 0) = false := by
    rw [hfreq]
    exact beq_eq_false_iff_ne.mpr hf0
  unfold updateTowerFrequency
  rw [if_pos hmem, if_pos htrig, if_neg Bool.false_ne_true, hfind]
  simp only [Option.map_some', Option.getD_some]
  rw [hbeq, if_neg Bool.false_ne_true, applyFrequency_twice, hfreq]
  exact applyFrequency_eq_self s tid f0 htow hl1 hl2

/-- Witness for C9: on the state with the link between towerA and towerB
(all frequencies 5), changing tower 1 to 7 triggers the confirmation, and
cancelling restores the state exactly. -/
theorem updateTowerFrequency_cancel_revert_witness :
    (statePair.towers.any (fun t => t.id == 1) = true ∧
      (5:ℚ) ≠ 0 ∧ (invalidLinksOf statePair 1 7).length > 0) ∧
    updateTowerFrequency statePair 1 7 false = statePair :=
  ⟨⟨by decide, by decide, by decide⟩,
    updateTowerFrequency_cancel_revert statePair 1 7 5 (by decide) (by decide)
      (by decide) (by decide) (by decide) (by decide) (by decide)⟩

end RFPlanner
